import Mathlib

/-!
Shallow embedding of the PDF decryption service (`src/main.py`).

The service is request/response glue over an external PDF codec
(PyPDF2).  The codec is modelled abstractly as a structure providing
`parse` (the `PyPDF2.PdfReader` constructor, which may throw),
the parsed document's `is_encrypted` flag, the `decrypt` outcome for a
candidate password, the page list, and a `write` serializer
(`PyPDF2.PdfWriter`).  Bytes are `List Nat` with each element `< 256`
where it matters.  Base64 is implemented concretely, mirroring
Python's `base64.b64encode` / `b64decode`.
-/

/-- Bytes of an uploaded file: each entry is intended to be `< 256`. -/
abbrev ByteBuf := List Nat

/-- The standard base64 alphabet, as used by `base64.b64encode`. -/
def b64Alphabet : List Char :=
  ['A', 'B', 'C', 'D', 'E', 'F', 'G', 'H', 'I', 'J', 'K', 'L', 'M',
   'N', 'O', 'P', 'Q', 'R', 'S', 'T', 'U', 'V', 'W', 'X', 'Y', 'Z',
   'a', 'b', 'c', 'd', 'e', 'f', 'g', 'h', 'i', 'j', 'k', 'l', 'm',
   'n', 'o', 'p', 'q', 'r', 's', 't', 'u', 'v', 'w', 'x', 'y', 'z',
   '0', '1', '2', '3', '4', '5', '6', '7', '8', '9', '+', '/']

/-- The character encoding a 6-bit group. -/
def sextetChar (n : Nat) : Char := b64Alphabet.getD n 'A'

/-- The 6-bit group a base64 character stands for. -/
def charSextet (c : Char) : Nat := b64Alphabet.indexOf c

/-- Base64-encode a byte list, three bytes to four characters,
padding with `=` exactly as `base64.b64encode` does. -/
def b64EncodeChunks : List Nat → List Char
  | b0 :: b1 :: b2 :: rest =>
      sextetChar (b0 / 4) ::
      sextetChar ((b0 % 4) * 16 + b1 / 16) ::
      sextetChar ((b1 % 16) * 4 + b2 / 64) ::
      sextetChar (b2 % 64) ::
      b64EncodeChunks rest
  | [b0, b1] =>
      [sextetChar (b0 / 4), sextetChar ((b0 % 4) * 16 + b1 / 16),
       sextetChar ((b1 % 16) * 4), '=']
  | [b0] =>
      [sextetChar (b0 / 4), sextetChar ((b0 % 4) * 16), '=', '=']
  | [] => []

/-- Base64-decode a character list, four characters to three bytes,
honouring `=` padding, as `base64.b64decode` does on valid input. -/
def b64DecodeChunks : List Char → List Nat
  | c0 :: c1 :: c2 :: c3 :: rest =>
      if c2 = '=' then
        [charSextet c0 * 4 + charSextet c1 / 16]
      else if c3 = '=' then
        [charSextet c0 * 4 + charSextet c1 / 16,
         (charSextet c1 % 16) * 16 + charSextet c2 / 4]
      else
        (charSextet c0 * 4 + charSextet c1 / 16) ::
        ((charSextet c1 % 16) * 16 + charSextet c2 / 4) ::
        ((charSextet c2 % 4) * 64 + charSextet c3) ::
        b64DecodeChunks rest
  | _ => []

/-- `base64.b64encode(...).decode('utf-8')` of a byte buffer. -/
def b64encode (bs : ByteBuf) : String := String.mk (b64EncodeChunks bs)

/-- `base64.b64decode` of a base64 string. -/
def b64decode (s : String) : ByteBuf := b64DecodeChunks s.toList

theorem charSextet_sextetChar : ∀ n < 64, charSextet (sextetChar n) = n := by
  decide

theorem sextetChar_ne_pad : ∀ n < 64, sextetChar n ≠ '=' := by
  decide

theorem b64_chunks_roundtrip (bs : List Nat) (h : ∀ b ∈ bs, b < 256) :
    b64DecodeChunks (b64EncodeChunks bs) = bs := by
  induction bs using b64EncodeChunks.induct with
  | case1 b0 b1 b2 rest ih =>
      have hb0 : b0 < 256 := h b0 (by simp)
      have hb1 : b1 < 256 := h b1 (by simp)
      have hb2 : b2 < 256 := h b2 (by simp)
      have h0 : b0 / 4 < 64 := by omega
      have h1 : (b0 % 4) * 16 + b1 / 16 < 64 := by omega
      have h2 : (b1 % 16) * 4 + b2 / 64 < 64 := by omega
      have h3 : b2 % 64 < 64 := by omega
      rw [b64EncodeChunks, b64DecodeChunks]
      rw [if_neg (sextetChar_ne_pad _ h2), if_neg (sextetChar_ne_pad _ h3)]
      rw [charSextet_sextetChar _ h0, charSextet_sextetChar _ h1,
          charSextet_sextetChar _ h2, charSextet_sextetChar _ h3]
      rw [ih (fun b hb => h b (by simp [hb]))]
      congr 1
      · omega
      congr 1
      · omega
      congr 1
      omega
  | case2 b0 b1 =>
      have hb0 : b0 < 256 := h b0 (by simp)
      have hb1 : b1 < 256 := h b1 (by simp)
      have h0 : b0 / 4 < 64 := by omega
      have h1 : (b0 % 4) * 16 + b1 / 16 < 64 := by omega
      have h2 : (b1 % 16) * 4 < 64 := by omega
      rw [b64EncodeChunks, b64DecodeChunks]
      rw [if_neg (sextetChar_ne_pad _ h2), if_pos rfl]
      rw [charSextet_sextetChar _ h0, charSextet_sextetChar _ h1,
          charSextet_sextetChar _ h2]
      congr 1
      · omega
      congr 1
      omega
  | case3 b0 =>
      have hb0 : b0 < 256 := h b0 (by simp)
      have h0 : b0 / 4 < 64 := by omega
      have h1 : (b0 % 4) * 16 < 64 := by omega
      rw [b64EncodeChunks, b64DecodeChunks]
      rw [if_pos rfl]
      rw [charSextet_sextetChar _ h0, charSextet_sextetChar _ h1]
      congr 1
      omega
  | case4 => rfl

theorem b64_roundtrip (bs : ByteBuf) (h : ∀ b ∈ bs, b < 256) :
    b64decode (b64encode bs) = bs := by
  unfold b64decode b64encode
  rw [show (String.mk (b64EncodeChunks bs)).toList = b64EncodeChunks bs from rfl]
  exact b64_chunks_roundtrip bs h

/-! ## The PDF codec collaborator (PyPDF2), modelled abstractly -/

/-- A page of a parsed document (opaque token). -/
abbrev Page := Nat

/-- A parsed document (`PyPDF2.PdfReader`): its `is_encrypted` flag, the
truthiness of `decrypt(password)` for each candidate password, and its
page list. -/
structure PdfDoc where
  is_encrypted : Bool
  decryptOk : String → Bool
  pages : List Page

/-- The codec: `parse` is the `PyPDF2.PdfReader` constructor (it may
throw, carrying a message), `write` is `PdfWriter.write` serializing a
page list back to bytes. -/
structure PdfCodec where
  parse : ByteBuf → Except String PdfDoc
  write : List Page → ByteBuf

/-! ## Responses and exceptions -/

/-- A JSON value appearing in a response body. -/
inductive JsonVal where
  | bool (b : Bool)
  | nat (n : Nat)
  | str (s : String)
  | null
deriving DecidableEq, Repr

/-- A JSON object response body: ordered field/value pairs. -/
abbrev Response := List (String × JsonVal)

/-- A Python exception escaping a handler body: `http` is FastAPI's
`HTTPException(status_code, detail)`, `other` any other `Exception`
rendered by `str(e)`. -/
inductive Exn where
  | http (status : Nat) (detail : String)
  | other (msg : String)
deriving DecidableEq, Repr

/-- Outcome of a request: a JSON body, or an error response built from
an `HTTPException`. -/
abbrev HttpResult := Except Exn Response

/-- The field names present in an outcome: the body's keys on success;
FastAPI renders an `HTTPException` as a body with the single key
`detail`. -/
def respFields : HttpResult → List String
  | .ok body => body.map Prod.fst
  | .error _ => ["detail"]

/-! ## The `/decrypt-pdf` handler -/

/-- Body of the `try:` block of `decrypt_pdf` in `src/main.py`
(lines 52–118): parse, return the original bytes if not encrypted,
raise 400 if the password is rejected, otherwise copy all pages to a
writer, serialize, and return the re-encoded bytes. -/
def decrypt_body (codec : PdfCodec) (pdf_content : ByteBuf)
    (password : String) : Except Exn Response :=
  match codec.parse pdf_content with
  | .error e => .error (.other e)
  | .ok pdf_reader =>
    if !pdf_reader.is_encrypted then
      .ok [("success", .bool true),
           ("decrypted_base64", .str (b64encode pdf_content)),
           ("page_count", .nat pdf_reader.pages.length),
           ("file_size", .nat pdf_content.length),
           ("was_encrypted", .bool false),
           ("message", .str "PDF was not encrypted")]
    else if !pdf_reader.decryptOk password then
      .error (.http 400 "Invalid password. Could not decrypt the PDF.")
    else
      let page_count := pdf_reader.pages.length
      let copied_pages :=
        (List.range page_count).map (fun i => pdf_reader.pages.getD i 0)
      let decrypted_bytes := codec.write copied_pages
      .ok [("success", .bool true),
           ("decrypted_base64", .str (b64encode decrypted_bytes)),
           ("page_count", .nat page_count),
           ("file_size", .nat decrypted_bytes.length),
           ("original_file_size", .nat pdf_content.length),
           ("was_encrypted", .bool true),
           ("message", .str "PDF decrypted successfully")]

/-- The `except` clauses of `decrypt_pdf` (lines 120–128): an
`HTTPException` is re-raised unchanged; any other exception becomes a
500 with the underlying message embedded. -/
def decrypt_handle_exn (r : Except Exn Response) : HttpResult :=
  match r with
  | .ok v => .ok v
  | .error (.http c d) => .error (.http c d)
  | .error (.other m) =>
      .error (.http 500 ("Internal server error during PDF decryption: " ++ m))

/-- The whole `/decrypt-pdf` handler: body wrapped in its exception
translation. -/
def decrypt_pdf (codec : PdfCodec) (pdf_content : ByteBuf)
    (password : String) : HttpResult :=
  decrypt_handle_exn (decrypt_body codec pdf_content password)

/-! ## The `/check-encryption` handler -/

/-- Body of the `try:` block of `check_pdf_encryption` (lines 145–164):
parse, report the encryption flag, the page count only when not
encrypted, the size and the filename.  It takes no password and never
calls `decrypt`. -/
def check_body (codec : PdfCodec) (pdf_content : ByteBuf)
    (filename : String) : Except String Response :=
  match codec.parse pdf_content with
  | .error e => .error e
  | .ok pdf_reader =>
    let is_encrypted := pdf_reader.is_encrypted
    let page_count : Option Nat :=
      if !is_encrypted then some pdf_reader.pages.length else none
    .ok [("is_encrypted", .bool is_encrypted),
         ("page_count",
          match page_count with
          | some n => .nat n
          | none => .null),
         ("file_size", .nat pdf_content.length),
         ("filename", .str filename)]

/-- The `except Exception` clause of `check_pdf_encryption`
(lines 166–171): any exception becomes a 500. -/
def check_handle_exn (r : Except String Response) : HttpResult :=
  match r with
  | .ok v => .ok v
  | .error m =>
      .error (.http 500 ("Error checking PDF encryption: " ++ m))

/-- The whole `/check-encryption` handler. -/
def check_pdf_encryption (codec : PdfCodec) (pdf_content : ByteBuf)
    (filename : String) : HttpResult :=
  check_handle_exn (check_body codec pdf_content filename)

/-! ## Codec call traces (for the no-retry / no-decrypt-call claims) -/

/-- An invocation of one of the codec collaborator's operations. -/
inductive CodecEvent where
  | parseCall : CodecEvent
  | decryptCall : String → CodecEvent
  | writeCall : CodecEvent
deriving DecidableEq, Repr

/-- The sequence of codec operations `decrypt_pdf` performs on a given
request, read off the same control flow as `decrypt_body`. -/
def decrypt_pdf_events (codec : PdfCodec) (pdf_content : ByteBuf)
    (password : String) : List CodecEvent :=
  match codec.parse pdf_content with
  | .error _ => [.parseCall]
  | .ok pdf_reader =>
    if !pdf_reader.is_encrypted then [.parseCall]
    else if !pdf_reader.decryptOk password then
      [.parseCall, .decryptCall password]
    else [.parseCall, .decryptCall password, .writeCall]

/-- The sequence of codec operations `check_pdf_encryption` performs:
it only ever parses. -/
def check_pdf_encryption_events (codec : PdfCodec) (pdf_content : ByteBuf) :
    List CodecEvent :=
  match codec.parse pdf_content with
  | .error _ => [.parseCall]
  | .ok _ => [.parseCall]

/-! ## Helpers for stating properties of outcomes -/

/-- Whether an outcome is a success (a JSON body was returned). -/
def isSuccess : HttpResult → Bool
  | .ok _ => true
  | .error _ => false

/-- A named field of a successful outcome's body. -/
def respField (r : HttpResult) (k : String) : Option JsonVal :=
  match r with
  | .ok body => List.lookup k body
  | .error _ => none

/-! ## Concrete fixtures used by witnesses and counterexamples -/

/-- An unencrypted two-page document. -/
def plainDoc : PdfDoc :=
  { is_encrypted := false, decryptOk := fun _ => false, pages := [0, 1] }

/-- An encrypted three-page document accepting only the password
`secret`. -/
def encDoc : PdfDoc :=
  { is_encrypted := true, decryptOk := fun p => p == "secret",
    pages := [0, 1, 2] }

/-- A codec parsing every input to the unencrypted fixture document. -/
def plainCodec : PdfCodec :=
  { parse := fun _ => .ok plainDoc, write := fun ps => ps }

/-- A codec parsing every input to the encrypted fixture document; its
serializer prepends a byte, so re-serialized output differs in length
from the upload. -/
def encCodec : PdfCodec :=
  { parse := fun _ => .ok encDoc, write := fun ps => 7 :: ps }

/-- A codec rejecting every input, as `PyPDF2.PdfReader` does on
malformed bytes. -/
def badCodec : PdfCodec :=
  { parse := fun _ => .error "EOF marker not found", write := fun _ => [] }

/-! ## Claims -/

/-- C1: for every encrypted input whose password the codec rejects, the
decrypt operation fails with HTTP 400 and its outcome carries no
`decrypted_base64` field. -/
theorem decrypt_wrong_password_400 (codec : PdfCodec) (content : ByteBuf)
    (password : String) (doc : PdfDoc)
    (hp : codec.parse content = .ok doc)
    (henc : doc.is_encrypted = true)
    (hrej : doc.decryptOk password = false) :
    decrypt_pdf codec content password =
      .error (.http 400 "Invalid password. Could not decrypt the PDF.") ∧
    "decrypted_base64" ∉ respFields (decrypt_pdf codec content password) := by
  have hbody : decrypt_body codec content password =
      .error (.http 400 "Invalid password. Could not decrypt the PDF.") := by
    unfold decrypt_body
    rw [hp]
    simp [henc, hrej]
  have hres : decrypt_pdf codec content password =
      .error (.http 400 "Invalid password. Could not decrypt the PDF.") := by
    unfold decrypt_pdf
    rw [hbody]
    rfl
  exact ⟨hres, by rw [hres]; simp [respFields]⟩

/-- Witness for C1 at a concrete encrypted fixture and wrong password. -/
theorem decrypt_wrong_password_400_witness :
    decrypt_pdf encCodec [9, 9] "guess" =
      .error (.http 400 "Invalid password. Could not decrypt the PDF.") ∧
    "decrypted_base64" ∉ respFields (decrypt_pdf encCodec [9, 9] "guess") :=
  decrypt_wrong_password_400 encCodec [9, 9] "guess" encDoc rfl rfl rfl

/-- C2: for every well-formed unencrypted input, the decrypt operation
succeeds with `was_encrypted = false` and the returned base64 payload
decodes back to the uploaded bytes. -/
theorem decrypt_unencrypted_roundtrip (codec : PdfCodec) (content : ByteBuf)
    (password : String) (doc : PdfDoc)
    (hbytes : ∀ b ∈ content, b < 256)
    (hp : codec.parse content = .ok doc)
    (henc : doc.is_encrypted = false) :
    isSuccess (decrypt_pdf codec content password) = true ∧
    respField (decrypt_pdf codec content password) "was_encrypted" =
      some (.bool false) ∧
    respField (decrypt_pdf codec content password) "decrypted_base64" =
      some (.str (b64encode content)) ∧
    b64decode (b64encode content) = content := by
  have hres : decrypt_pdf codec content password =
      .ok [("success", .bool true),
           ("decrypted_base64", .str (b64encode content)),
           ("page_count", .nat doc.pages.length),
           ("file_size", .nat content.length),
           ("was_encrypted", .bool false),
           ("message", .str "PDF was not encrypted")] := by
    unfold decrypt_pdf decrypt_body
    rw [hp]
    simp [henc, decrypt_handle_exn]
  refine ⟨by rw [hres]; rfl, ?_, ?_, b64_roundtrip content hbytes⟩
  · rw [hres]
    simp [respField, List.lookup]
  · rw [hres]
    simp [respField, List.lookup]

/-- Witness for C2 at a concrete unencrypted fixture. -/
theorem decrypt_unencrypted_roundtrip_witness :
    isSuccess (decrypt_pdf plainCodec [1, 2, 3] "pw") = true ∧
    respField (decrypt_pdf plainCodec [1, 2, 3] "pw") "was_encrypted" =
      some (.bool false) ∧
    respField (decrypt_pdf plainCodec [1, 2, 3] "pw") "decrypted_base64" =
      some (.str (b64encode [1, 2, 3])) ∧
    b64decode (b64encode [1, 2, 3]) = [1, 2, 3] :=
  decrypt_unencrypted_roundtrip plainCodec [1, 2, 3] "pw" plainDoc
    (by decide) rfl rfl

/-- C3: for every encrypted input with an accepted password, the decrypt
operation succeeds with `success = true`, `was_encrypted = true`, and
`page_count` equal to the parsed document's page count. -/
theorem decrypt_correct_password_ok (codec : PdfCodec) (content : ByteBuf)
    (password : String) (doc : PdfDoc)
    (hp : codec.parse content = .ok doc)
    (henc : doc.is_encrypted = true)
    (hacc : doc.decryptOk password = true) :
    isSuccess (decrypt_pdf codec content password) = true ∧
    respField (decrypt_pdf codec content password) "success" =
      some (.bool true) ∧
    respField (decrypt_pdf codec content password) "was_encrypted" =
      some (.bool true) ∧
    respField (decrypt_pdf codec content password) "page_count" =
      some (.nat doc.pages.length) := by
  have hres : decrypt_pdf codec content password =
      .ok [("success", .bool true),
           ("decrypted_base64",
            .str (b64encode (codec.write ((List.range doc.pages.length).map
              (fun i => doc.pages.getD i 0))))),
           ("page_count", .nat doc.pages.length),
           ("file_size", .nat (codec.write ((List.range doc.pages.length).map
              (fun i => doc.pages.getD i 0))).length),
           ("original_file_size", .nat content.length),
           ("was_encrypted", .bool true),
           ("message", .str "PDF decrypted successfully")] := by
    unfold decrypt_pdf decrypt_body
    rw [hp]
    simp [henc, hacc, decrypt_handle_exn]
  refine ⟨by rw [hres]; rfl, ?_, ?_, ?_⟩ <;>
    rw [hres] <;> simp [respField, List.lookup]

/-- Witness for C3 at a concrete encrypted fixture with the right
password. -/
theorem decrypt_correct_password_ok_witness :
    isSuccess (decrypt_pdf encCodec [9, 9] "secret") = true ∧
    respField (decrypt_pdf encCodec [9, 9] "secret") "success" =
      some (.bool true) ∧
    respField (decrypt_pdf encCodec [9, 9] "secret") "was_encrypted" =
      some (.bool true) ∧
    respField (decrypt_pdf encCodec [9, 9] "secret") "page_count" =
      some (.nat encDoc.pages.length) :=
  decrypt_correct_password_ok encCodec [9, 9] "secret" encDoc rfl rfl rfl

/-- C4: for every input the inspect operation never invokes the codec's
decrypt (its codec-call trace holds no decrypt event, unconditionally),
and for an input the codec reports as encrypted it returns
`page_count = null`. -/
theorem check_never_decrypts_null_page_count (codec : PdfCodec)
    (content : ByteBuf) (filename pw : String) :
    CodecEvent.decryptCall pw ∉ check_pdf_encryption_events codec content ∧
    (∀ doc, codec.parse content = .ok doc → doc.is_encrypted = true →
      respField (check_pdf_encryption codec content filename) "page_count" =
        some .null) := by
  constructor
  · unfold check_pdf_encryption_events
    cases hq : codec.parse content <;> simp
  · intro doc hp henc
    unfold check_pdf_encryption check_body
    rw [hp]
    simp [henc, check_handle_exn, respField, List.lookup]

/-- Witness for C4 at a concrete encrypted fixture. -/
theorem check_never_decrypts_null_page_count_witness :
    CodecEvent.decryptCall "secret" ∉
      check_pdf_encryption_events encCodec [9, 9] ∧
    respField (check_pdf_encryption encCodec [9, 9] "doc.pdf") "page_count" =
      some .null :=
  ⟨(check_never_decrypts_null_page_count encCodec [9, 9] "doc.pdf"
      "secret").1,
   (check_never_decrypts_null_page_count encCodec [9, 9] "doc.pdf"
      "secret").2 encDoc rfl rfl⟩

/-- C6: when the codec cannot parse the input, both operations
terminate with an HTTP 500 error response carrying the underlying
message. -/
theorem malformed_input_500 (codec : PdfCodec) (content : ByteBuf)
    (password filename e : String)
    (hp : codec.parse content = .error e) :
    decrypt_pdf codec content password =
      .error (.http 500 ("Internal server error during PDF decryption: " ++ e)) ∧
    check_pdf_encryption codec content filename =
      .error (.http 500 ("Error checking PDF encryption: " ++ e)) := by
  constructor
  · unfold decrypt_pdf decrypt_body
    rw [hp]
    rfl
  · unfold check_pdf_encryption check_body
    rw [hp]
    rfl

/-- Witness for C6 at a concrete malformed-input fixture. -/
theorem malformed_input_500_witness :
    decrypt_pdf badCodec [0] "pw" =
      .error (.http 500
        ("Internal server error during PDF decryption: " ++
          "EOF marker not found")) ∧
    check_pdf_encryption badCodec [0] "doc.pdf" =
      .error (.http 500
        ("Error checking PDF encryption: " ++ "EOF marker not found")) :=
  malformed_input_500 badCodec [0] "pw" "doc.pdf" "EOF marker not found" rfl

/-- C9: when the codec reports the document as not encrypted, the
decrypt operation's response does not depend on the submitted
password. -/
theorem decrypt_password_noninterference (codec : PdfCodec)
    (content : ByteBuf) (p1 p2 : String) (doc : PdfDoc)
    (hp : codec.parse content = .ok doc)
    (henc : doc.is_encrypted = false) :
    decrypt_pdf codec content p1 = decrypt_pdf codec content p2 := by
  unfold decrypt_pdf decrypt_body
  rw [hp]
  simp [henc]

/-- Witness for C9 at a concrete unencrypted fixture and two distinct
passwords. -/
theorem decrypt_password_noninterference_witness :
    decrypt_pdf plainCodec [1, 2, 3] "alpha" =
      decrypt_pdf plainCodec [1, 2, 3] "beta" :=
  decrypt_password_noninterference plainCodec [1, 2, 3] "alpha" "beta"
    plainDoc rfl rfl

/-- C10: an `HTTPException` raised inside the decrypt handler body
passes through the outer exception translation unchanged (same status
code and detail); only non-HTTP exceptions become 500s. -/
theorem decrypt_http_exn_propagates (codec : PdfCodec) (content : ByteBuf)
    (password : String) (c : Nat) (d : String)
    (h : decrypt_body codec content password = .error (.http c d)) :
    decrypt_pdf codec content password = .error (.http c d) := by
  unfold decrypt_pdf
  rw [h]
  rfl

/-- Witness for C10: the concrete 400 raised for a rejected password
survives the outer handler untouched. -/
theorem decrypt_http_exn_propagates_witness :
    decrypt_pdf encCodec [9, 9] "nope" =
      .error (.http 400 "Invalid password. Could not decrypt the PDF.") :=
  decrypt_http_exn_propagates encCodec [9, 9] "nope" 400
    "Invalid password. Could not decrypt the PDF." rfl

/-- C7 counterexample: at a concrete encrypted fixture the decrypt
operation succeeds, yet the body carries a seventh field
`original_file_size` and `file_size` is the re-serialized size (4), not
the uploaded size (2). -/
theorem decrypt_fields_counterexample :
    decrypt_pdf encCodec [9, 9] "secret" =
      .ok [("success", .bool true),
           ("decrypted_base64", .str "BwABAg=="),
           ("page_count", .nat 3),
           ("file_size", .nat 4),
           ("original_file_size", .nat 2),
           ("was_encrypted", .bool true),
           ("message", .str "PDF decrypted successfully")] ∧
    respFields (decrypt_pdf encCodec [9, 9] "secret") ≠
      ["success", "decrypted_base64", "page_count", "file_size",
       "was_encrypted", "message"] ∧
    respField (decrypt_pdf encCodec [9, 9] "secret") "file_size" ≠
      some (.nat (List.length [9, 9])) :=
  ⟨by rfl, by decide, by decide⟩

/-- C7 as amended: every successful decrypt response has exactly the
fields `success, decrypted_base64, page_count, file_size,
was_encrypted, message` with `file_size` the uploaded size (unencrypted
path), or those plus `original_file_size` carrying the uploaded size,
with `file_size` the size of the re-serialized decrypted bytes
(encrypted path). -/
theorem decrypt_success_fields (codec : PdfCodec) (content : ByteBuf)
    (password : String) (body : Response)
    (h : decrypt_pdf codec content password = .ok body) :
    (body.map Prod.fst =
       ["success", "decrypted_base64", "page_count", "file_size",
        "was_encrypted", "message"] ∧
     List.lookup "file_size" body = some (.nat content.length)) ∨
    (body.map Prod.fst =
       ["success", "decrypted_base64", "page_count", "file_size",
        "original_file_size", "was_encrypted", "message"] ∧
     List.lookup "original_file_size" body = some (.nat content.length) ∧
     (∃ doc, codec.parse content = .ok doc ∧
       List.lookup "file_size" body =
         some (.nat (codec.write ((List.range doc.pages.length).map
           (fun i => doc.pages.getD i 0))).length))) := by
  unfold decrypt_pdf decrypt_body at h
  cases hq : codec.parse content with
  | error e =>
      rw [hq] at h
      simp [decrypt_handle_exn] at h
  | ok doc =>
      rw [hq] at h
      by_cases henc : doc.is_encrypted
      · by_cases hok : doc.decryptOk password
        · simp [henc, hok, decrypt_handle_exn] at h
          right
          rw [← h]
          refine ⟨rfl, by simp [List.lookup], doc, rfl, by simp [List.lookup]⟩
        · simp [henc, hok, decrypt_handle_exn] at h
      · simp [henc, decrypt_handle_exn] at h
        left
        rw [← h]
        constructor
        · rfl
        · simp [List.lookup]

/-- Witness for the amended C7 at a concrete unencrypted fixture. -/
theorem decrypt_success_fields_witness :
    ([("success", JsonVal.bool true),
      ("decrypted_base64", JsonVal.str (b64encode [1, 2, 3])),
      ("page_count", JsonVal.nat 2),
      ("file_size", JsonVal.nat 3),
      ("was_encrypted", JsonVal.bool false),
      ("message", JsonVal.str "PDF was not encrypted")].map Prod.fst =
       ["success", "decrypted_base64", "page_count", "file_size",
        "was_encrypted", "message"] ∧
     List.lookup "file_size"
       [("success", JsonVal.bool true),
        ("decrypted_base64", JsonVal.str (b64encode [1, 2, 3])),
        ("page_count", JsonVal.nat 2),
        ("file_size", JsonVal.nat 3),
        ("was_encrypted", JsonVal.bool false),
        ("message", JsonVal.str "PDF was not encrypted")] =
       some (.nat (List.length [1, 2, 3]))) ∨
    ([("success", JsonVal.bool true),
      ("decrypted_base64", JsonVal.str (b64encode [1, 2, 3])),
      ("page_count", JsonVal.nat 2),
      ("file_size", JsonVal.nat 3),
      ("was_encrypted", JsonVal.bool false),
      ("message", JsonVal.str "PDF was not encrypted")].map Prod.fst =
       ["success", "decrypted_base64", "page_count", "file_size",
        "original_file_size", "was_encrypted", "message"] ∧
     List.lookup "original_file_size"
       [("success", JsonVal.bool true),
        ("decrypted_base64", JsonVal.str (b64encode [1, 2, 3])),
        ("page_count", JsonVal.nat 2),
        ("file_size", JsonVal.nat 3),
        ("was_encrypted", JsonVal.bool false),
        ("message", JsonVal.str "PDF was not encrypted")] =
       some (.nat (List.length [1, 2, 3])) ∧
     (∃ doc, plainCodec.parse [1, 2, 3] = .ok doc ∧
       List.lookup "file_size"
         [("success", JsonVal.bool true),
          ("decrypted_base64", JsonVal.str (b64encode [1, 2, 3])),
          ("page_count", JsonVal.nat 2),
          ("file_size", JsonVal.nat 3),
          ("was_encrypted", JsonVal.bool false),
          ("message", JsonVal.str "PDF was not encrypted")] =
         some (.nat (plainCodec.write ((List.range doc.pages.length).map
           (fun i => doc.pages.getD i 0))).length))) :=
  decrypt_success_fields plainCodec [1, 2, 3] "pw" _ rfl

/-- C8: each request performs each codec operation at most once (no
retries), and a decrypted payload field appears only in a fully
successful outcome; failures carry only an error detail. -/
theorem request_atomic (codec : PdfCodec) (content : ByteBuf)
    (password : String) (ev : CodecEvent) :
    (decrypt_pdf_events codec content password).count ev ≤ 1 ∧
    (check_pdf_encryption_events codec content).count ev ≤ 1 ∧
    ("decrypted_base64" ∈ respFields (decrypt_pdf codec content password) →
      isSuccess (decrypt_pdf codec content password) = true) := by
  refine ⟨?_, ?_, ?_⟩
  · unfold decrypt_pdf_events
    cases hq : codec.parse content with
    | error e => exact List.nodup_iff_count_le_one.mp (by simp) ev
    | ok doc =>
        by_cases henc : doc.is_encrypted
        · by_cases hok : doc.decryptOk password
          · simp only [henc, hok]
            exact List.nodup_iff_count_le_one.mp (by simp) ev
          · simp only [henc, hok]
            exact List.nodup_iff_count_le_one.mp (by simp) ev
        · simp only [henc]
          exact List.nodup_iff_count_le_one.mp (by simp) ev
  · unfold check_pdf_encryption_events
    cases hq : codec.parse content with
    | error e => exact List.nodup_iff_count_le_one.mp (by simp) ev
    | ok doc => exact List.nodup_iff_count_le_one.mp (by simp) ev
  · cases hr : decrypt_pdf codec content password with
    | ok body => intro _; rfl
    | error e => intro hmem; simp [respFields] at hmem

/-- Witness for C8 at a concrete fixture, with the payload-membership
hypothesis discharged on the unencrypted success path. -/
theorem request_atomic_witness :
    (decrypt_pdf_events plainCodec [1, 2, 3] "pw").count CodecEvent.parseCall ≤ 1 ∧
    (check_pdf_encryption_events plainCodec [1, 2, 3]).count CodecEvent.parseCall ≤ 1 ∧
    isSuccess (decrypt_pdf plainCodec [1, 2, 3] "pw") = true :=
  ⟨(request_atomic plainCodec [1, 2, 3] "pw" .parseCall).1,
   (request_atomic plainCodec [1, 2, 3] "pw" .parseCall).2.1,
   (request_atomic plainCodec [1, 2, 3] "pw" .parseCall).2.2
     (by decide)⟩

/-- C5: base64 decoding is a left inverse of the base64 encoding both
endpoints use: decoding the encoding of any byte buffer returns it
unchanged. -/
theorem b64_encode_decode_id (bs : ByteBuf) (h : ∀ b ∈ bs, b < 256) :
    b64decode (b64encode bs) = bs :=
  b64_roundtrip bs h

/-- Witness for C5 on a concrete buffer exercising all padding cases'
neighbour lengths. -/
theorem b64_encode_decode_id_witness :
    b64decode (b64encode [0, 1, 127, 128, 255]) = [0, 1, 127, 128, 255] :=
  b64_encode_decode_id [0, 1, 127, 128, 255] (by decide)
